import Mathlib

/-!
Shallow embedding of the Logto console page `UserSessionDetails`
(`packages/console/src/pages/UserSessionDetails/index.tsx`) and of the
cookie guard (`packages/schemas/src/types/cookie.ts`), together with
theorems settling the specification claims about them.

JavaScript numbers used as timestamps are modelled as `Int`; optional
values (`undefined`) as `Option`; JS truthiness of an optional string
(`undefined` and `""` are falsy) as `jsTruthyStr`.  Rendered React
nodes are modelled by small inductive types that keep exactly the
information the page puts into them.
-/

namespace Logto

/-- JS truthiness of an optional string: `undefined` and `""` are falsy. -/
def jsTruthyStr : Option String → Bool
  | none => false
  | some s => s != ""

/-! ## TimestampNormalizer (`formatTimestamp`) -/

/-- Result of `formatTimestamp`: either the dash placeholder or a
locale-formatted rendering of the millisecond instant `ms`
(`new Date(ms).toLocaleString()` is abstracted to the instant it formats). -/
inductive FormattedTimestamp
  | dash
  | time (ms : Int)
deriving DecidableEq

/-- The unit-disambiguation step of `formatTimestamp`: the local
`const timestamp = value < 1_000_000_000_000 ? value * 1000 : value`. -/
def toMillis (value : Int) : Int :=
  if value < 1000000000000 then value * 1000 else value

/-- `formatTimestamp` from the source: `if (!value) return '-';` then format
the disambiguated millisecond instant.  For a JS number, `!value` holds
exactly for `0` (and `NaN`, which has no `Int` counterpart). -/
def formatTimestamp : Option Int → FormattedTimestamp
  | none => .dash
  | some value => if value = 0 then .dash else .time (toMillis value)

/-! ## SessionInfoDeriver output and the header title -/

/-- The display-info bundle produced by the external collaborator
`getSessionDisplayInfo`; every field is optional, exactly as consumed by the
page (`name`, `ip`, `location`, `browserName`, `osName`, `deviceModel`). -/
structure SessionDisplayInfo where
  name : Option String
  ip : Option String
  location : Option String
  browserName : Option String
  osName : Option String
  deviceModel : Option String
deriving DecidableEq

/-- The header node: either the composite `browser_on_os` phrase (a `DynamicT`
interpolating both names) or a plain text node. -/
inductive HeaderTitle
  | browserOnOs (browser os : String)
  | text (value : String)
deriving DecidableEq

/-- Whether a header title is the composite browser-on-OS phrase. -/
def HeaderTitle.isCombined : HeaderTitle → Bool
  | .browserOnOs _ _ => true
  | .text _ => false

/-- `headerTitle` from the source:
`if (sessionInfo?.browserName && sessionInfo.osName) { <browser_on_os/> }`
else `sessionInfo?.browserName ?? sessionInfo?.osName ?? sessionInfo?.name ?? '-'`.
The guard uses JS truthiness; the fallback chain uses `??` (first defined). -/
def headerTitle (sessionInfo : Option SessionDisplayInfo) : HeaderTitle :=
  let browserName := sessionInfo.bind SessionDisplayInfo.browserName
  let osName := sessionInfo.bind SessionDisplayInfo.osName
  if jsTruthyStr browserName && jsTruthyStr osName then
    .browserOnOs (browserName.getD "") (osName.getD "")
  else
    .text ((browserName <|> osName <|> sessionInfo.bind SessionDisplayInfo.name).getD "-")

/-! ## Session record -/

/-- The session payload as consumed by the page: `uid`, the optional
`loginTs`, and the `authorizations` clientId-keyed record map.  A JS object
is modelled as an association list in key-insertion order; the grant payload
stored under each key is opaque to the page (only key presence matters). -/
structure SessionPayload where
  uid : String
  loginTs : Option Int
  authorizations : List (String × Unit)
deriving DecidableEq

/-- The fetched `GetUserSessionResponse`. -/
structure SessionRecord where
  payload : SessionPayload
deriving DecidableEq

/-- `sessionInfo` memo: `sessionData ? getSessionDisplayInfo(sessionData) : undefined`. -/
def sessionInfoOf (getSessionDisplayInfo : SessionRecord → SessionDisplayInfo) :
    Option SessionRecord → Option SessionDisplayInfo
  | none => none
  | some d => some (getSessionDisplayInfo d)

/-! ## AuthorizationSetResolver (`applications` memo) -/

/-- One rendered `ApplicationName` entry: the application id and whether it is
rendered as a navigable link (`isLink={!isBuiltInApplicationId(applicationId)}`). -/
structure ApplicationRef where
  applicationId : String
  isLink : Bool
deriving DecidableEq

/-- The `applications` node: the `'-'` placeholder or the ordered list of
rendered application references. -/
inductive ApplicationsView
  | placeholder
  | refs (entries : List ApplicationRef)
deriving DecidableEq

/-- The application ids carried by an `ApplicationsView`. -/
def applicationIds : ApplicationsView → List String
  | .placeholder => []
  | .refs entries => entries.map ApplicationRef.applicationId

/-- The `applications` memo from the source: take `Object.keys` of the
`authorizations` map (insertion order) when a record is present, else `[]`;
render `'-'` when that list is empty, otherwise one `ApplicationName` per key,
linkable iff the id is not built-in.  The predicate `isBuiltInApplicationId`
is the external pure predicate from `@logto/schemas`, passed as a parameter. -/
def applicationsView (isBuiltInApplicationId : String → Bool)
    (sessionData : Option SessionRecord) : ApplicationsView :=
  let authorizedApplicationIds :=
    match sessionData with
    | none => []
    | some d => d.payload.authorizations.map Prod.fst
  if authorizedApplicationIds.isEmpty then .placeholder
  else
    .refs (authorizedApplicationIds.map
      fun applicationId => ⟨applicationId, !isBuiltInApplicationId applicationId⟩)

/-! ## SessionDetailViewModel (`infoFields` memo) -/

/-- A rendered field value: a plain text node, the `UserName` link component,
the `applications` node, or the formatted `signedInAt` timestamp string. -/
inductive RenderedValue
  | text (value : String)
  | userLink (userId : String)
  | applications (view : ApplicationsView)
  | timestamp (value : FormattedTimestamp)
deriving DecidableEq

/-- One entry of the `infoFields` memo: React `key`, translation `labelKey`,
and the rendered value. -/
structure InfoField where
  key : String
  labelKey : String
  value : RenderedValue
deriving DecidableEq

/-- `sessionLocation`: `sessionInfo?.location ?? '-'`. -/
def sessionLocation (sessionInfo : Option SessionDisplayInfo) : String :=
  (sessionInfo.bind SessionDisplayInfo.location).getD "-"

/-- The `infoFields` memo from the source: `[]` when `sessionData` is absent,
otherwise the fixed ordered list of nine labeled fields built from the record,
the derived display info, the `applications` node and the formatted
`signedInAt` value.  `getSessionDisplayInfo` and `isBuiltInApplicationId` are
the external collaborators, passed as parameters. -/
def infoFields (getSessionDisplayInfo : SessionRecord → SessionDisplayInfo)
    (isBuiltInApplicationId : String → Bool)
    (userId : Option String) (sessionData : Option SessionRecord) : List InfoField :=
  match sessionData with
  | none => []
  | some d =>
    let sessionInfo := sessionInfoOf getSessionDisplayInfo (some d)
    [ ⟨"session-id", "user_details.sessions.session_id_column", .text d.payload.uid⟩,
      ⟨"user", "user_details.sessions.user",
        if jsTruthyStr userId then .userLink (userId.getD "") else .text "-"⟩,
      ⟨"applications", "user_details.sessions.applications",
        .applications (applicationsView isBuiltInApplicationId (some d))⟩,
      ⟨"signed-in-at", "user_details.sessions.signed_in_at",
        .timestamp (formatTimestamp d.payload.loginTs)⟩,
      ⟨"ip", "user_details.sessions.ip",
        .text ((sessionInfo.bind SessionDisplayInfo.ip).getD "-")⟩,
      ⟨"location", "user_details.sessions.location_column",
        .text (sessionLocation sessionInfo)⟩,
      ⟨"browser-name", "user_details.sessions.browser_name",
        .text ((sessionInfo.bind SessionDisplayInfo.browserName).getD "-")⟩,
      ⟨"os-name", "user_details.sessions.os_name",
        .text ((sessionInfo.bind SessionDisplayInfo.osName).getD "-")⟩,
      ⟨"device-model", "user_details.sessions.device_model",
        .text ((sessionInfo.bind SessionDisplayInfo.deviceModel).getD "-")⟩ ]

/-! ## RevocationCoordinator -/

/-- The SWR key of the session-list cache entry for a user:
`api/users/.../sessions` (the key `mutateGlobal` is called with in
`onRevokeCallback`). -/
def sessionsListKey (userId : String) : String :=
  "api/users/" ++ userId ++ "/sessions"

/-- The SWR key of the single-session cache entry:
`api/users/.../sessions/...`. -/
def sessionDetailKey (userId sessionId : String) : String :=
  "api/users/" ++ userId ++ "/sessions/" ++ sessionId

/-- The `useSWR` key expression
`userId && sessionId && api/users/.../sessions/...`: a falsy (missing or
empty) parameter short-circuits to a falsy key, so no fetch is issued. -/
def swrSessionKey (userId sessionId : Option String) : Option String :=
  if jsTruthyStr userId && jsTruthyStr sessionId then
    some (sessionDetailKey (userId.getD "") (sessionId.getD ""))
  else none

/-- The render guard `userId && sessionId && <RevokeSessionConfirmModal/>`:
the revoke confirmation control is mounted only when both route parameters
are truthy. -/
def renderRevokeModal (userId sessionId : Option String) : Bool :=
  jsTruthyStr userId && jsTruthyStr sessionId

/-- Observable side effects of the view: opening/closing the confirmation
modal, invalidating a keyed SWR cache entry via the global `mutate`, calling
the single-session `mutateSession`, navigating back (`navigate(-1)`), and
issuing the revoke command with its identifiers. -/
inductive Effect
  | openModal
  | closeModal
  | invalidate (key : String)
  | mutateSession
  | navigateBack
  | revokeCommand (userId sessionId : String)
deriving DecidableEq

/-- The body of `onRevokeCallback` from the source, in statement order:
`setShowRevokeConfirmModal(false)`, then
`void mutateGlobal(api/users/.../sessions)`, then `navigate(-1)`. -/
def onRevokeCallbackEffects (userId : String) : List Effect :=
  [.closeModal, .invalidate (sessionsListKey userId), .navigateBack]

/-- States of the revocation coordinator. -/
inductive CoordState
  | idle
  | confirmPending
  | executing
deriving DecidableEq

/-- Events driving the revocation coordinator: the operator opening the
confirmation from the action menu, confirming, cancelling, and the backend
acknowledging or rejecting the revoke command. -/
inductive CoordEvent
  | invokeAction
  | confirm
  | cancel
  | backendSuccess
  | backendError
deriving DecidableEq

/-- Modelled from the spec: `RevokeSessionConfirmModal` (imported by the page
but not part of the given sources) issues the revoke command on confirm,
invokes `onRevokeCallback` only on backend success, and applies no side
effect on backend error (state returns to idle).  The guard on `confirm` and
the contents of the cancel and success branches come from the source page:
`confirm` can only happen through the mounted modal (`renderRevokeModal`),
`onCancel` closes the modal, and `onRevokeCallback` performs
`onRevokeCallbackEffects`. -/
def coordStep (userId sessionId : Option String) :
    CoordState → CoordEvent → CoordState × List Effect
  | .idle, .invokeAction => (.confirmPending, [.openModal])
  | .confirmPending, .confirm =>
    if renderRevokeModal userId sessionId then
      (.executing, [.revokeCommand (userId.getD "") (sessionId.getD "")])
    else (.confirmPending, [])
  | .confirmPending, .cancel => (.idle, [.closeModal])
  | .executing, .backendSuccess => (.idle, onRevokeCallbackEffects (userId.getD ""))
  | .executing, .backendError => (.idle, [])
  | st, _ => (st, [])

/-- Run the coordinator over a sequence of events, accumulating the emitted
effects in order. -/
def runCoord (userId sessionId : Option String) :
    CoordState → List CoordEvent → CoordState × List Effect
  | st, [] => (st, [])
  | st, ev :: evs =>
    let step := coordStep userId sessionId st ev
    let rest := runCoord userId sessionId step.1 evs
    (rest.1, step.2 ++ rest.2)

/-! ## Cookie guard (`logtoUiCookieGuard`) -/

/-- A JSON-style JS value as validated by the cookie guard; only whether the
value is a string matters to the guard. -/
inductive JsValue
  | str (value : String)
  | num (value : Int)
  | boolean (value : Bool)
  | null
deriving DecidableEq

/-- Whether a JS value is a string. -/
def JsValue.isString : JsValue → Bool
  | .str _ => true
  | _ => false

/-- The three field names declared by the cookie guard schema. -/
def cookieKeys : List String := ["appId", "organizationId", "ui_locales"]

/-- Validation of one optional string field of the `.partial()` object
schema: absent is accepted, present must be a string. -/
def cookieFieldOk (fields : List (String × JsValue)) (key : String) : Bool :=
  match fields.lookup key with
  | none => true
  | some v => v.isString

/-- `logtoUiCookieGuard` from the source:
`z.object({ appId: z.string(), organizationId: z.string(), ui_locales: z.string() }).partial()`
applied to an object (modelled as an association list of its own properties);
each declared field must be absent or a string, unknown fields are ignored. -/
def logtoUiCookieGuard (fields : List (String × JsValue)) : Bool :=
  cookieFieldOk fields "appId" && cookieFieldOk fields "organizationId" &&
    cookieFieldOk fields "ui_locales"

/-! ## Theorems -/

/-- C3: `formatTimestamp` returns the dash placeholder on an absent or falsy
input (including `0`); for `0 < ts < 10^12` it formats the millisecond
instant `ts * 1000`; for `ts ≥ 10^12` it formats the instant `ts` directly;
and on every numeric input it yields a result (it never throws). -/
theorem formatTimestamp_spec :
    formatTimestamp none = .dash
    ∧ formatTimestamp (some 0) = .dash
    ∧ (∀ ts : Int, 0 < ts → ts < 1000000000000 →
        formatTimestamp (some ts) = .time (ts * 1000))
    ∧ (∀ ts : Int, 1000000000000 ≤ ts →
        formatTimestamp (some ts) = .time ts)
    ∧ (∀ v : Option Int, formatTimestamp v = .dash ∨
        ∃ ms, formatTimestamp v = .time ms) := by
  refine ⟨rfl, rfl, ?_, ?_, ?_⟩
  · intro ts h0 hlt
    simp [formatTimestamp, toMillis, hlt, h0.ne']
  · intro ts hge
    have h0 : ts ≠ 0 := by omega
    have hlt : ¬ ts < 1000000000000 := by omega
    simp [formatTimestamp, toMillis, h0, hlt]
  · intro v
    match v with
    | none => exact Or.inl rfl
    | some value =>
      by_cases h : value = 0
      · exact Or.inl (by simp [formatTimestamp, h])
      · exact Or.inr ⟨toMillis value, by simp [formatTimestamp, h]⟩

/-- Witness for C3: concrete evaluations in both unit regimes. -/
theorem formatTimestamp_spec_witness :
    formatTimestamp (some 5) = .time 5000
    ∧ formatTimestamp (some 2000000000000) = .time 2000000000000 :=
  ⟨formatTimestamp_spec.2.2.1 5 (by decide) (by decide),
    formatTimestamp_spec.2.2.2.1 2000000000000 (by decide)⟩

/-- C4 counterexample: the unit-disambiguation rule is not monotone across
the `10^12` boundary — `999999999999 ≤ 10^12` but the derived instants are
`999999999999000 > 10^12`, so chronology is reordered. -/
theorem toMillis_not_monotone :
    (0 : Int) ≤ 999999999999
    ∧ (999999999999 : Int) ≤ 1000000000000
    ∧ ¬ toMillis 999999999999 ≤ toMillis 1000000000000 := by decide

/-- C4 (amended): the millisecond instants produced by the unit-disambiguation
rule preserve the order of non-negative inputs whenever both inputs lie in the
same unit regime (both below `10^12` or both at least `10^12`); across the
boundary the order can be reversed. -/
theorem toMillis_monotone_same_regime (ts1 ts2 : Int) (_h0 : 0 ≤ ts1) (h12 : ts1 ≤ ts2)
    (hsame : ts2 < 1000000000000 ∨ 1000000000000 ≤ ts1) :
    toMillis ts1 ≤ toMillis ts2 := by
  rcases hsame with h | h
  · have h1 : ts1 < 1000000000000 := lt_of_le_of_lt h12 h
    simp only [toMillis, if_pos h, if_pos h1]
    omega
  · have h1 : ¬ ts1 < 1000000000000 := by omega
    have h2 : ¬ ts2 < 1000000000000 := by omega
    simpa only [toMillis, if_neg h1, if_neg h2] using h12

/-- Witness for the amended C4: concrete inputs in the seconds regime. -/
theorem toMillis_monotone_same_regime_witness : toMillis 3 ≤ toMillis 7 :=
  toMillis_monotone_same_regime 3 7 (by decide) (by decide) (Or.inl (by decide))

/-- C1: on backend success the coordinator performs exactly, and in this
order: close the confirmation modal, invalidate the session-list cache entry
keyed by this user (exactly once), invoke back-navigation (exactly once). -/
theorem revoke_success_effects (userId : String) (sessionId : Option String) :
    (coordStep (some userId) sessionId .executing .backendSuccess).2 =
      [.closeModal, .invalidate (sessionsListKey userId), .navigateBack]
    ∧ (coordStep (some userId) sessionId .executing .backendSuccess).2.count
        (.invalidate (sessionsListKey userId)) = 1
    ∧ (coordStep (some userId) sessionId .executing .backendSuccess).2.count
        .navigateBack = 1 := by
  refine ⟨rfl, ?_, ?_⟩ <;>
    simp [coordStep, onRevokeCallbackEffects, List.count_cons, List.count_nil]

/-- Witness for C1: the success-path effect trace at concrete identifiers. -/
theorem revoke_success_effects_witness :
    (coordStep (some "user-1") (some "session-1") .executing .backendSuccess).2 =
      [.closeModal, .invalidate (sessionsListKey "user-1"), .navigateBack] :=
  (revoke_success_effects "user-1" (some "session-1")).1

/-- C2: on backend error the coordinator emits no effect at all (no cache
invalidation, no navigation) and returns to idle; moreover a session-list
invalidation effect can only arise from the backend-success step out of
`executing` — never before, never unconditionally. -/
theorem revoke_failure_no_invalidation (userId sessionId : Option String) :
    coordStep userId sessionId .executing .backendError = (.idle, [])
    ∧ ∀ st ev k, Effect.invalidate k ∈ (coordStep userId sessionId st ev).2 →
        st = .executing ∧ ev = .backendSuccess := by
  refine ⟨rfl, ?_⟩
  intro st ev k h
  cases st <;> cases ev <;>
    simp only [coordStep, onRevokeCallbackEffects] at h <;>
    first
      | exact ⟨rfl, rfl⟩
      | (split at h <;> simp_all)
      | simp_all

/-- Witness for C2: an invalidation effect observed in a step forces that step
to be the success step out of `executing`. -/
theorem revoke_failure_no_invalidation_witness :
    CoordState.executing = CoordState.executing
    ∧ CoordEvent.backendSuccess = CoordEvent.backendSuccess :=
  (revoke_failure_no_invalidation (some "u") (some "s")).2 .executing .backendSuccess
    (sessionsListKey "u") (by decide)

/-- C7: the success path touches only the session-list cache:
`onRevokeCallback` never calls the single-session `mutateSession`, its only
invalidation targets the session-list key of this user, and no coordinator
step whatsoever emits a `mutateSession` effect. -/
theorem revoke_success_frame (userId : String) :
    Effect.mutateSession ∉ onRevokeCallbackEffects userId
    ∧ (∀ k, Effect.invalidate k ∈ onRevokeCallbackEffects userId →
        k = sessionsListKey userId)
    ∧ ∀ uid sid st ev, Effect.mutateSession ∉ (coordStep uid sid st ev).2 := by
  refine ⟨by simp [onRevokeCallbackEffects], ?_, ?_⟩
  · intro k hk
    simp [onRevokeCallbackEffects] at hk
    exact hk
  · intro uid sid st ev
    cases st <;> cases ev <;>
      simp only [coordStep, onRevokeCallbackEffects] <;>
      first
        | simp
        | (split <;> simp)

/-- Witness for C7: the invalidated key in the concrete success trace is the
session-list key of the user. -/
theorem revoke_success_frame_witness :
    "api/users/u/sessions" = sessionsListKey "u" :=
  (revoke_success_frame "u").2.1 "api/users/u/sessions" (by decide)

/-- Helper: while the confirmation modal is not mounted, one coordinator step
out of a non-`executing` state neither enters `executing` nor issues the
revoke command. -/
theorem coordStep_blocked_without_modal (userId sessionId : Option String)
    (hmodal : renderRevokeModal userId sessionId = false)
    (st : CoordState) (ev : CoordEvent) (hst : st ≠ .executing) :
    (coordStep userId sessionId st ev).1 ≠ .executing
    ∧ ∀ u s, Effect.revokeCommand u s ∉ (coordStep userId sessionId st ev).2 := by
  cases st <;> cases ev <;> simp_all [coordStep, onRevokeCallbackEffects]

/-- Helper: the blocked-step property extends to arbitrary event sequences. -/
theorem runCoord_blocked_without_modal (userId sessionId : Option String)
    (hmodal : renderRevokeModal userId sessionId = false) :
    ∀ (events : List CoordEvent) (st : CoordState), st ≠ .executing →
      (runCoord userId sessionId st events).1 ≠ .executing
      ∧ ∀ u s, Effect.revokeCommand u s ∉ (runCoord userId sessionId st events).2 := by
  intro events
  induction events with
  | nil =>
    intro st hst
    exact ⟨hst, by simp [runCoord]⟩
  | cons ev evs ih =>
    intro st hst
    have hstep := coordStep_blocked_without_modal userId sessionId hmodal st ev hst
    have hrest := ih (coordStep userId sessionId st ev).1 hstep.1
    refine ⟨by simpa [runCoord] using hrest.1, ?_⟩
    intro u s
    simp only [runCoord, List.mem_append, not_or]
    exact ⟨hstep.2 u s, hrest.2 u s⟩

/-- C5: when either route parameter is missing (or empty), the revoke
confirmation control is not rendered, the single-session fetch key is falsy
so the fetch is not issued, the coordinator never reaches `executing` from
`idle` under any event sequence, and no revoke command is ever issued. -/
theorem missing_ids_block_revoke (userId sessionId : Option String)
    (h : jsTruthyStr userId = false ∨ jsTruthyStr sessionId = false)
    (events : List CoordEvent) :
    renderRevokeModal userId sessionId = false
    ∧ swrSessionKey userId sessionId = none
    ∧ (runCoord userId sessionId .idle events).1 ≠ .executing
    ∧ ∀ u s, Effect.revokeCommand u s ∉ (runCoord userId sessionId .idle events).2 := by
  have hmodal : renderRevokeModal userId sessionId = false := by
    rcases h with h | h <;> simp [renderRevokeModal, h]
  have hkey : swrSessionKey userId sessionId = none := by
    rcases h with h | h <;> simp [swrSessionKey, h]
  have hrun := runCoord_blocked_without_modal userId sessionId hmodal events .idle (by simp)
  exact ⟨hmodal, hkey, hrun.1, hrun.2⟩

/-- Witness for C5: with a missing user id, invoking and confirming leaves the
coordinator outside `executing`. -/
theorem missing_ids_block_revoke_witness :
    (runCoord none (some "s") .idle [.invokeAction, .confirm, .backendSuccess]).1 ≠
      .executing :=
  (missing_ids_block_revoke none (some "s") (Or.inl (by decide))
    [.invokeAction, .confirm, .backendSuccess]).2.2.1

/-- C6: for a present record the `applications` node carries exactly one
reference per key of the `authorizations` map, in key-insertion order, with
pairwise-distinct ids, each linkable iff its id is not built-in; for an
absent record or an empty map the node is the placeholder. -/
theorem applications_resolution (isBuiltInApplicationId : String → Bool)
    (record : SessionRecord)
    (hkeys : (record.payload.authorizations.map Prod.fst).Nodup) :
    applicationsView isBuiltInApplicationId none = .placeholder
    ∧ (record.payload.authorizations = [] →
        applicationsView isBuiltInApplicationId (some record) = .placeholder)
    ∧ (record.payload.authorizations ≠ [] →
        applicationsView isBuiltInApplicationId (some record) =
          .refs ((record.payload.authorizations.map Prod.fst).map
            fun applicationId => ⟨applicationId, !isBuiltInApplicationId applicationId⟩))
    ∧ (applicationIds (applicationsView isBuiltInApplicationId (some record))).Nodup
    ∧ ∀ entries, applicationsView isBuiltInApplicationId (some record) = .refs entries →
        entries.map ApplicationRef.applicationId =
          record.payload.authorizations.map Prod.fst
        ∧ ∀ r ∈ entries, r.isLink = !isBuiltInApplicationId r.applicationId := by
  by_cases hemp : record.payload.authorizations = []
  · refine ⟨rfl, fun _ => by simp [applicationsView, hemp], fun hne => absurd hemp hne,
      ?_, ?_⟩
    · simp [applicationsView, applicationIds, hemp]
    · intro entries hentries
      simp [applicationsView, hemp] at hentries
  · have hview : applicationsView isBuiltInApplicationId (some record) =
        .refs ((record.payload.authorizations.map Prod.fst).map
          fun applicationId => ⟨applicationId, !isBuiltInApplicationId applicationId⟩) := by
      simp [applicationsView, List.isEmpty_iff, hemp]
    refine ⟨rfl, fun he => absurd he hemp, fun _ => hview, ?_, ?_⟩
    · simpa [hview, applicationIds, List.map_map, Function.comp] using hkeys
    · intro entries hentries
      rw [hview] at hentries
      cases hentries
      constructor
      · simp [List.map_map, Function.comp]
      · intro r hr
        simp only [List.mem_map] at hr
        rcases hr with ⟨id, _, rfl⟩
        rfl

/-- Witness for C6: a concrete two-key map resolves to two ordered references
with the built-in key rendered without a link. -/
theorem applications_resolution_witness :
    applicationsView (fun id => id == "b") (some ⟨⟨"uid-1", none, [("a", ()), ("b", ())]⟩⟩) =
      .refs [⟨"a", true⟩, ⟨"b", false⟩] :=
  (applications_resolution (fun id => id == "b") ⟨⟨"uid-1", none, [("a", ()), ("b", ())]⟩⟩
    (by decide)).2.2.1 (by decide)

/-- C8 counterexample input: browser name `"Chrome"` and OS name present but
equal to the empty string. -/
def headerInfoOsEmpty : SessionDisplayInfo :=
  ⟨none, none, none, some "Chrome", some "", none⟩

/-- C8 counterexample: with both `browserName` and `osName` present (the OS
name being the empty string), the source does not produce the combined
browser-on-OS phrase — the truthiness guard fails and the `??` chain yields
`"Chrome"` — so "both present implies combined phrase" is false as stated. -/
theorem headerTitle_present_not_combined :
    headerInfoOsEmpty.browserName.isSome = true
    ∧ headerInfoOsEmpty.osName.isSome = true
    ∧ (headerTitle (some headerInfoOsEmpty)).isCombined = false
    ∧ headerTitle (some headerInfoOsEmpty) = .text "Chrome" := by decide

/-- C8 (amended): the combined browser-on-OS phrase is produced exactly when
both names are present and non-empty; otherwise the title is the first
defined value among `browserName`, `osName` and the generic session name
(even when that value is empty), and the placeholder when all are absent. -/
theorem headerTitle_priority (info : SessionDisplayInfo) :
    headerTitle none = .text "-"
    ∧ (∀ b o, info.browserName = some b → info.osName = some o → b ≠ "" → o ≠ "" →
        headerTitle (some info) = .browserOnOs b o)
    ∧ (∀ b, info.browserName = some b →
        (b = "" ∨ info.osName = none ∨ info.osName = some "") →
        headerTitle (some info) = .text b)
    ∧ (∀ o, info.browserName = none → info.osName = some o →
        headerTitle (some info) = .text o)
    ∧ (∀ n, info.browserName = none → info.osName = none → info.name = some n →
        headerTitle (some info) = .text n)
    ∧ (info.browserName = none → info.osName = none → info.name = none →
        headerTitle (some info) = .text "-") := by
  refine ⟨by simp [headerTitle, jsTruthyStr], ?_, ?_, ?_, ?_, ?_⟩
  · intro b o hb ho hbne hone
    simp [headerTitle, jsTruthyStr, hb, ho, hbne, hone]
  · intro b hb hcase
    rcases hcase with hbe | hos | hos
    · simp [headerTitle, jsTruthyStr, hb, hbe]
    · simp [headerTitle, jsTruthyStr, hb, hos]
    · simp [headerTitle, jsTruthyStr, hb, hos]
  · intro o hb ho
    simp [headerTitle, jsTruthyStr, hb, ho]
  · intro n hb ho hn
    simp [headerTitle, jsTruthyStr, hb, ho, hn]
  · intro hb ho hn
    simp [headerTitle, jsTruthyStr, hb, ho, hn]

/-- Witness for the amended C8: both names present and non-empty produce the
combined phrase. -/
theorem headerTitle_priority_witness :
    headerTitle (some ⟨none, none, none, some "Chrome", some "macOS", none⟩) =
      .browserOnOs "Chrome" "macOS" :=
  (headerTitle_priority ⟨none, none, none, some "Chrome", some "macOS", none⟩).2.1
    "Chrome" "macOS" rfl rfl (by decide) (by decide)

/-- C9: the session-detail view model yields the empty field sequence when no
record is present, and with a record it yields the fixed ordered nine-field
list whose keys are pairwise distinct. -/
theorem infoFields_keys (getSessionDisplayInfo : SessionRecord → SessionDisplayInfo)
    (isBuiltInApplicationId : String → Bool)
    (userId : Option String) (record : SessionRecord) :
    infoFields getSessionDisplayInfo isBuiltInApplicationId userId none = []
    ∧ (infoFields getSessionDisplayInfo isBuiltInApplicationId userId
        (some record)).map InfoField.key =
      ["session-id", "user", "applications", "signed-in-at", "ip", "location",
        "browser-name", "os-name", "device-model"]
    ∧ ((infoFields getSessionDisplayInfo isBuiltInApplicationId userId
        (some record)).map InfoField.key).Nodup := by
  have hmap : (infoFields getSessionDisplayInfo isBuiltInApplicationId userId
      (some record)).map InfoField.key =
      ["session-id", "user", "applications", "signed-in-at", "ip", "location",
        "browser-name", "os-name", "device-model"] := rfl
  exact ⟨rfl, hmap, by rw [hmap]; decide⟩

/-- Witness for C9: concrete evaluation at an absent record. -/
theorem infoFields_keys_witness :
    infoFields (fun _ => ⟨none, none, none, none, none, none⟩) (fun _ => true)
      none none = [] :=
  (infoFields_keys (fun _ => ⟨none, none, none, none, none, none⟩) (fun _ => true)
    none ⟨⟨"u", none, []⟩⟩).1

/-- C10: the cookie guard accepts the empty object and exactly those objects
in which each of `appId`, `organizationId` and `ui_locales` is absent or
bound to a string; it fails whenever one of the three is present with a
non-string value. -/
theorem cookie_guard_spec (fields : List (String × JsValue)) :
    logtoUiCookieGuard [] = true
    ∧ (logtoUiCookieGuard fields = true ↔
        ∀ key ∈ cookieKeys, ∀ v, fields.lookup key = some v → v.isString = true) := by
  refine ⟨rfl, ?_⟩
  constructor
  · intro h key hkey v hv
    simp only [logtoUiCookieGuard, Bool.and_eq_true] at h
    rcases h with ⟨⟨h1, h2⟩, h3⟩
    simp only [cookieKeys, List.mem_cons, List.mem_singleton] at hkey
    rcases hkey with rfl | rfl | rfl | hfalse
    · simpa [cookieFieldOk, hv] using h1
    · simpa [cookieFieldOk, hv] using h2
    · simpa [cookieFieldOk, hv] using h3
    · simp at hfalse
  · intro h
    simp only [logtoUiCookieGuard, Bool.and_eq_true]
    refine ⟨⟨?_, ?_⟩, ?_⟩
    · cases hl : fields.lookup "appId" with
      | none => simp [cookieFieldOk, hl]
      | some v =>
        simpa [cookieFieldOk, hl] using h "appId" (by simp [cookieKeys]) v hl
    · cases hl : fields.lookup "organizationId" with
      | none => simp [cookieFieldOk, hl]
      | some v =>
        simpa [cookieFieldOk, hl] using h "organizationId" (by simp [cookieKeys]) v hl
    · cases hl : fields.lookup "ui_locales" with
      | none => simp [cookieFieldOk, hl]
      | some v =>
        simpa [cookieFieldOk, hl] using h "ui_locales" (by simp [cookieKeys]) v hl

/-- Witness for C10: the guard accepts a concrete object with one declared
string field and one unknown field. -/
theorem cookie_guard_spec_witness :
    logtoUiCookieGuard [("appId", .str "app-1"), ("extra", .num 3)] = true :=
  (cookie_guard_spec [("appId", .str "app-1"), ("extra", .num 3)]).2.mpr (by
    intro key hkey v hv
    fin_cases hkey <;> simp_all [List.lookup]
    exact hv ▸ rfl)

end Logto

